import Mathlib

/-!
Shallow embedding of the `uke_account_filter` ink! contract (`src/lib.rs`).

The contract keeps three partial mappings keyed by account identifier
(`opted_in`, `global_filter`, `allowed_accounts`) plus a `default_address`.
Each message receives the authenticated caller from the environment; we pass
the caller explicitly.  A call produces a typed result, the new storage state,
and the list of events emitted during the call.
-/

namespace Uke

/-- Account identifiers are opaque comparable values (32-byte ids in the
host); we model them as naturals. -/
abbrev AccountId := Nat

/-- `ink_storage::Mapping`: a partial key-value table, absent keys read as
`none`. -/
def Mapping (V : Type) : Type := AccountId → Option V

/-- `Mapping::insert`: point update. -/
def Mapping.insert {V : Type} (m : Mapping V) (k : AccountId) (v : V) :
    Mapping V :=
  fun q => if q = k then some v else m q

/-- `Mapping::get`: lookup, `none` when absent. -/
def Mapping.lookup {V : Type} (m : Mapping V) (k : AccountId) : Option V :=
  m k

/-- The `OptIn` event, emitted whenever a user changes their opt-in status. -/
inductive Event : Type
  | OptIn (id : AccountId) (status : Bool)
deriving DecidableEq, Repr

/-- Errors that can occur upon calling this contract. -/
inductive Error : Type
  | NotOptedIn
  | CallerIsNotOwner
deriving DecidableEq, Repr

/-- `type Result<T> = core::result::Result<T, Error>`. -/
abbrev Result (T : Type) : Type := Except Error T

/-- The `#[ink(storage)]` struct `UkeAccountFilter`. -/
structure UkeAccountFilter : Type where
  opted_in : Mapping Bool
  global_filter : Mapping Bool
  allowed_accounts : Mapping (List AccountId)
  default_address : AccountId

/-- Outcome of one contract message call: the returned result, the storage
state after the call, and the events emitted by the call (in order). -/
structure CallOutcome : Type where
  result : Result Unit
  state : UkeAccountFilter
  events : List Event

/-- Constructor `UkeAccountFilter::new`: every mapping starts empty and
`default_address` is `Default::default()`. -/
def UkeAccountFilter.new : UkeAccountFilter where
  opted_in := fun _ => none
  global_filter := fun _ => none
  allowed_accounts := fun _ => none
  default_address := 0

/-- `get_optin_status_or_default`: `self.opted_in.get(&id).unwrap_or(false)`. -/
def get_optin_status_or_default (s : UkeAccountFilter) (id : AccountId) :
    Bool :=
  (s.opted_in.lookup id).getD false

/-- `get_global_status_or_default`:
`self.global_filter.get(&id).unwrap_or(false)`. -/
def get_global_status_or_default (s : UkeAccountFilter) (id : AccountId) :
    Bool :=
  (s.global_filter.lookup id).getD false

/-- `get_allowed_list_or_default`:
`self.allowed_accounts.get(&id).unwrap_or(Vec::new())`. -/
def get_allowed_list_or_default (s : UkeAccountFilter) (id : AccountId) :
    List AccountId :=
  (s.allowed_accounts.lookup id).getD []

/-- `is_caller_owner`: `id == self.env().caller()`. -/
def is_caller_owner (caller id : AccountId) : Bool :=
  id == caller

/-- `get_optin_status`: public read, returns the opt-in flag or default. -/
def get_optin_status (s : UkeAccountFilter) (id : AccountId) : Bool :=
  get_optin_status_or_default s id

/-- `get_global_filter`: public read, returns the global filter flag or
default. -/
def get_global_filter (s : UkeAccountFilter) (id : AccountId) : Bool :=
  get_global_status_or_default s id

/-- `get_allowed_accounts`: public read, returns the whitelist or default. -/
def get_allowed_accounts (s : UkeAccountFilter) (id : AccountId) :
    List AccountId :=
  get_allowed_list_or_default s id

/-- `change_optin_status(status, id)`: owner guard, then insert into
`opted_in` and emit `OptIn { id, status }`. -/
def change_optin_status (s : UkeAccountFilter) (caller : AccountId)
    (status : Bool) (id : AccountId) : CallOutcome :=
  if !(is_caller_owner caller id) then
    { result := .error .CallerIsNotOwner, state := s, events := [] }
  else
    { result := .ok ()
      state := { s with opted_in := s.opted_in.insert id status }
      events := [.OptIn id status] }

/-- `change_global_filter(id, status)`: owner guard, then opt-in guard, then
insert into `global_filter`; no event. -/
def change_global_filter (s : UkeAccountFilter) (caller : AccountId)
    (id : AccountId) (status : Bool) : CallOutcome :=
  if !(is_caller_owner caller id) then
    { result := .error .CallerIsNotOwner, state := s, events := [] }
  else if !(get_optin_status_or_default s id) then
    { result := .error .NotOptedIn, state := s, events := [] }
  else
    { result := .ok ()
      state := { s with global_filter := s.global_filter.insert id status }
      events := [] }

/-- `add_to_allowed(id, id_to_add)`: owner guard, then opt-in guard, then
push `id_to_add` onto the stored list (default empty) and insert it back;
no event. -/
def add_to_allowed (s : UkeAccountFilter) (caller : AccountId)
    (id : AccountId) (id_to_add : AccountId) : CallOutcome :=
  if !(is_caller_owner caller id) then
    { result := .error .CallerIsNotOwner, state := s, events := [] }
  else if !(get_optin_status_or_default s id) then
    { result := .error .NotOptedIn, state := s, events := [] }
  else
    let vec := get_allowed_list_or_default s id
    { result := .ok ()
      state := { s with
        allowed_accounts := s.allowed_accounts.insert id (vec ++ [id_to_add]) }
      events := [] }

/-- One mutating contract message, with its arguments. -/
inductive Op : Type
  | changeOptinStatus (status : Bool) (id : AccountId)
  | changeGlobalFilter (id : AccountId) (status : Bool)
  | addToAllowed (id : AccountId) (id_to_add : AccountId)
deriving DecidableEq, Repr

/-- The account an operation targets (the key whose record it may write). -/
def Op.target : Op → AccountId
  | .changeOptinStatus _ id => id
  | .changeGlobalFilter id _ => id
  | .addToAllowed id _ => id

/-- Dispatch a mutating message under a given caller identity. -/
def exec (s : UkeAccountFilter) (caller : AccountId) : Op → CallOutcome
  | .changeOptinStatus status id => change_optin_status s caller status id
  | .changeGlobalFilter id status => change_global_filter s caller id status
  | .addToAllowed id id_to_add => add_to_allowed s caller id id_to_add

lemma Mapping.insert_self {V : Type} (m : Mapping V) (k : AccountId)
    (v : V) : (m.insert k v) k = some v := by
  simp [Mapping.insert]

lemma Mapping.insert_of_ne {V : Type} (m : Mapping V) (k : AccountId)
    (v : V) {q : AccountId} (h : q ≠ k) : (m.insert k v) q = m q := by
  simp [Mapping.insert, h]

lemma Mapping.insert_insert_same {V : Type} (m : Mapping V)
    (k : AccountId) (v : V) : (m.insert k v).insert k v = m.insert k v := by
  funext q
  by_cases h : q = k <;> simp [Mapping.insert, h]

lemma change_optin_status_global_filter_frame (s : UkeAccountFilter)
    (caller : AccountId) (status : Bool) (id : AccountId) :
    (change_optin_status s caller status id).state.global_filter =
      s.global_filter := by
  simp only [change_optin_status]
  split <;> rfl

lemma change_optin_status_allowed_frame (s : UkeAccountFilter)
    (caller : AccountId) (status : Bool) (id : AccountId) :
    (change_optin_status s caller status id).state.allowed_accounts =
      s.allowed_accounts := by
  simp only [change_optin_status]
  split <;> rfl

lemma change_optin_status_opted_in_frame (s : UkeAccountFilter)
    (caller : AccountId) (status : Bool) (id k : AccountId) (h : k ≠ id) :
    (change_optin_status s caller status id).state.opted_in k =
      s.opted_in k := by
  simp only [change_optin_status]
  split
  · rfl
  · exact Mapping.insert_of_ne s.opted_in id status h

lemma change_global_filter_opted_in_frame (s : UkeAccountFilter)
    (caller id : AccountId) (status : Bool) :
    (change_global_filter s caller id status).state.opted_in =
      s.opted_in := by
  simp only [change_global_filter]
  split
  · rfl
  · split <;> rfl

lemma change_global_filter_allowed_frame (s : UkeAccountFilter)
    (caller id : AccountId) (status : Bool) :
    (change_global_filter s caller id status).state.allowed_accounts =
      s.allowed_accounts := by
  simp only [change_global_filter]
  split
  · rfl
  · split <;> rfl

lemma change_global_filter_global_frame (s : UkeAccountFilter)
    (caller id : AccountId) (status : Bool) (k : AccountId) (h : k ≠ id) :
    (change_global_filter s caller id status).state.global_filter k =
      s.global_filter k := by
  simp only [change_global_filter]
  split
  · rfl
  · split
    · rfl
    · exact Mapping.insert_of_ne s.global_filter id status h

lemma add_to_allowed_opted_in_frame (s : UkeAccountFilter)
    (caller id id_to_add : AccountId) :
    (add_to_allowed s caller id id_to_add).state.opted_in = s.opted_in := by
  simp only [add_to_allowed]
  split
  · rfl
  · split <;> rfl

lemma add_to_allowed_global_frame (s : UkeAccountFilter)
    (caller id id_to_add : AccountId) :
    (add_to_allowed s caller id id_to_add).state.global_filter =
      s.global_filter := by
  simp only [add_to_allowed]
  split
  · rfl
  · split <;> rfl

lemma add_to_allowed_allowed_frame (s : UkeAccountFilter)
    (caller id id_to_add : AccountId) (k : AccountId) (h : k ≠ id) :
    (add_to_allowed s caller id id_to_add).state.allowed_accounts k =
      s.allowed_accounts k := by
  simp only [add_to_allowed]
  split
  · rfl
  · split
    · rfl
    · exact Mapping.insert_of_ne s.allowed_accounts id _ h

lemma is_caller_owner_eq_false_of_ne {a b : AccountId} (h : a ≠ b) :
    is_caller_owner b a = false := by
  simp [is_caller_owner]
  exact h

lemma is_caller_owner_self (a : AccountId) : is_caller_owner a a = true := by
  simp [is_caller_owner]

/-- C1: for distinct accounts `a ≠ b`, every mutating operation targeting `a`
called by `b` returns `CallerIsNotOwner`, leaves the whole storage state
(hence all three mappings at every key) unchanged, and emits no event. -/
theorem owner_only_mutation_atomic_failure (s : UkeAccountFilter)
    (a b x : AccountId) (status : Bool) (h : a ≠ b) :
    change_optin_status s b status a =
      ⟨.error .CallerIsNotOwner, s, []⟩ ∧
    change_global_filter s b a status =
      ⟨.error .CallerIsNotOwner, s, []⟩ ∧
    add_to_allowed s b a x =
      ⟨.error .CallerIsNotOwner, s, []⟩ := by
  have hb := is_caller_owner_eq_false_of_ne h
  refine ⟨?_, ?_, ?_⟩ <;>
    simp [change_optin_status, change_global_filter, add_to_allowed, hb]

/-- Witness for C1 at concrete accounts 0 ≠ 1. -/
theorem owner_only_mutation_atomic_failure_witness :
    (0 : AccountId) ≠ 1 ∧
    (change_optin_status UkeAccountFilter.new 1 true 0 =
        ⟨.error .CallerIsNotOwner, UkeAccountFilter.new, []⟩ ∧
      change_global_filter UkeAccountFilter.new 1 0 true =
        ⟨.error .CallerIsNotOwner, UkeAccountFilter.new, []⟩ ∧
      add_to_allowed UkeAccountFilter.new 1 0 2 =
        ⟨.error .CallerIsNotOwner, UkeAccountFilter.new, []⟩) :=
  ⟨by decide,
    owner_only_mutation_atomic_failure UkeAccountFilter.new 0 1 2 true
      (by decide)⟩

/-- C4: on the freshly constructed store every read returns its default
(`false`, `false`, `[]`), and on any store an absent mapping entry reads as
the default; the reads are total functions needing no caller identity. -/
theorem default_state_and_total_reads (a : AccountId)
    (s : UkeAccountFilter) :
    get_optin_status UkeAccountFilter.new a = false ∧
    get_global_filter UkeAccountFilter.new a = false ∧
    get_allowed_accounts UkeAccountFilter.new a = [] ∧
    (s.opted_in.lookup a = none → get_optin_status s a = false) ∧
    (s.global_filter.lookup a = none → get_global_filter s a = false) ∧
    (s.allowed_accounts.lookup a = none → get_allowed_accounts s a = []) := by
  refine ⟨rfl, rfl, rfl, ?_, ?_, ?_⟩ <;> intro h <;>
    simp [get_optin_status, get_global_filter, get_allowed_accounts,
      get_optin_status_or_default, get_global_status_or_default,
      get_allowed_list_or_default, h]

/-- Witness for C4 at account 0 (and the absent-entry branch at account 1 of
the fresh store). -/
theorem default_state_and_total_reads_witness :
    get_optin_status UkeAccountFilter.new 0 = false ∧
    get_global_filter UkeAccountFilter.new 0 = false ∧
    get_allowed_accounts UkeAccountFilter.new 0 = [] ∧
    get_optin_status UkeAccountFilter.new 1 = false :=
  ⟨(default_state_and_total_reads 0 UkeAccountFilter.new).1,
    (default_state_and_total_reads 0 UkeAccountFilter.new).2.1,
    (default_state_and_total_reads 0 UkeAccountFilter.new).2.2.1,
    (default_state_and_total_reads 1 UkeAccountFilter.new).2.2.2.1 rfl⟩

/-- C2: with the caller equal to the target account, when the stored opt-in
flag is false or unset both `change_global_filter` and `add_to_allowed`
return `NotOptedIn` with the whole state unchanged and no event; when it is
true, `change_global_filter` returns Ok, stores `status`, and emits no
notification. -/
theorem optin_precondition_consistent (s : UkeAccountFilter)
    (id x : AccountId) (status : Bool) :
    (get_optin_status_or_default s id = false →
      change_global_filter s id id status = ⟨.error .NotOptedIn, s, []⟩ ∧
      add_to_allowed s id id x = ⟨.error .NotOptedIn, s, []⟩) ∧
    (get_optin_status_or_default s id = true →
      change_global_filter s id id status =
        ⟨.ok (),
          { s with global_filter := s.global_filter.insert id status },
          []⟩ ∧
      get_global_filter (change_global_filter s id id status).state id =
        status) := by
  constructor
  · intro h
    constructor <;>
      simp [change_global_filter, add_to_allowed, is_caller_owner_self, h]
  · intro h
    constructor
    · simp [change_global_filter, is_caller_owner_self, h]
    · simp [change_global_filter, is_caller_owner_self, h, get_global_filter,
        get_global_status_or_default, Mapping.lookup, Mapping.insert_self]

/-- Witness for C2: on the fresh store the opt-in flag is unset, so both
mutations fail with `NotOptedIn`; after opting in, storing the flag works. -/
theorem optin_precondition_consistent_witness :
    (change_global_filter UkeAccountFilter.new 0 0 true =
        ⟨.error .NotOptedIn, UkeAccountFilter.new, []⟩ ∧
      add_to_allowed UkeAccountFilter.new 0 0 1 =
        ⟨.error .NotOptedIn, UkeAccountFilter.new, []⟩) ∧
    get_global_filter
      (change_global_filter
        (change_optin_status UkeAccountFilter.new 0 true 0).state 0 0
        true).state 0 = true :=
  ⟨(optin_precondition_consistent UkeAccountFilter.new 0 1 true).1 rfl,
    ((optin_precondition_consistent
      (change_optin_status UkeAccountFilter.new 0 true 0).state 0 1
      true).2 rfl).2⟩

/-- C3: with the caller equal to `id` and the opt-in flag true,
`add_to_allowed id x` returns Ok and appends `x` at the end of `id`'s list,
with no uniqueness check, self-add restriction or bound (`x` is arbitrary,
including `x = id` or `x` already present); moreover no operation ever
removes or reorders existing entries: after any operation the old list is a
prefix of the new one. -/
theorem allow_list_append_postcondition (s : UkeAccountFilter)
    (id x caller : AccountId) (op : Op) :
    (get_optin_status_or_default s id = true →
      add_to_allowed s id id x =
        ⟨.ok (),
          { s with
            allowed_accounts :=
              s.allowed_accounts.insert id
                (get_allowed_list_or_default s id ++ [x]) },
          []⟩ ∧
      get_allowed_accounts (add_to_allowed s id id x).state id =
        get_allowed_accounts s id ++ [x]) ∧
    (∃ t, get_allowed_accounts (exec s caller op).state id =
      get_allowed_accounts s id ++ t) := by
  constructor
  · intro h
    constructor
    · simp [add_to_allowed, is_caller_owner_self, h]
    · simp [add_to_allowed, is_caller_owner_self, h, get_allowed_accounts,
        get_allowed_list_or_default, Mapping.lookup, Mapping.insert_self]
  · cases op with
    | changeOptinStatus status tid =>
        exact ⟨[], by
          simp [exec, get_allowed_accounts, get_allowed_list_or_default,
            Mapping.lookup, change_optin_status_allowed_frame]⟩
    | changeGlobalFilter tid status =>
        exact ⟨[], by
          simp [exec, get_allowed_accounts, get_allowed_list_or_default,
            Mapping.lookup, change_global_filter_allowed_frame]⟩
    | addToAllowed tid y =>
        by_cases hk : id = tid
        · subst hk
          by_cases h1 : is_caller_owner caller id
          · by_cases h2 : get_optin_status_or_default s id
            · exact ⟨[y], by
                simp [exec, add_to_allowed, h1, h2, get_allowed_accounts,
                  get_allowed_list_or_default, Mapping.lookup,
                  Mapping.insert_self]⟩
            · exact ⟨[], by
                simp [exec, add_to_allowed, h1,
                  Bool.eq_false_iff.mpr h2]⟩
          · exact ⟨[], by
              simp [exec, add_to_allowed, Bool.eq_false_iff.mpr h1]⟩
        · exact ⟨[], by
            simp [exec, get_allowed_accounts, get_allowed_list_or_default,
              Mapping.lookup, add_to_allowed_allowed_frame s caller tid y id
                hk]⟩

/-- Witness for C3: after account 0 opts in, adding 0 itself twice appends
both copies (self-add and duplicates allowed); the frame part instantiated
at one operation. -/
theorem allow_list_append_postcondition_witness :
    get_allowed_accounts
      (add_to_allowed (change_optin_status UkeAccountFilter.new 0 true
        0).state 0 0 0).state 0 = [] ++ [0] ∧
    (∃ t, get_allowed_accounts
      (exec UkeAccountFilter.new 0 (.changeOptinStatus true 0)).state 0 =
        get_allowed_accounts UkeAccountFilter.new 0 ++ t) :=
  ⟨((allow_list_append_postcondition
      (change_optin_status UkeAccountFilter.new 0 true 0).state 0 0 0
      (.changeOptinStatus true 0)).1 rfl).2,
    (allow_list_append_postcondition UkeAccountFilter.new 0 0 0
      (.changeOptinStatus true 0)).2⟩

/-- C5: `change_optin_status` succeeds exactly when the caller owns the
account; on success it stores `status` and emits exactly one
`OptIn (id, status)` event; it never returns `NotOptedIn`; and a second
identical call yields the same stored state and emits the event again. -/
theorem change_optin_status_owner_iff_notifies (s : UkeAccountFilter)
    (caller id : AccountId) (status : Bool) :
    (caller = id →
      change_optin_status s caller status id =
        ⟨.ok (), { s with opted_in := s.opted_in.insert id status },
          [.OptIn id status]⟩) ∧
    ((change_optin_status s caller status id).result = .ok () →
      caller = id) ∧
    (change_optin_status s caller status id).result ≠
      .error .NotOptedIn ∧
    get_optin_status (change_optin_status s id status id).state id =
      status ∧
    change_optin_status (change_optin_status s id status id).state id
        status id =
      ⟨.ok (), (change_optin_status s id status id).state,
        [.OptIn id status]⟩ := by
  refine ⟨?_, ?_, ?_, ?_, ?_⟩
  · intro h
    subst h
    simp [change_optin_status, is_caller_owner_self]
  · intro h
    by_cases hc : caller = id
    · exact hc
    · rw [change_optin_status,
        is_caller_owner_eq_false_of_ne (Ne.symm hc)] at h
      simp at h
  · by_cases hc : caller = id
    · subst hc
      simp [change_optin_status, is_caller_owner_self]
    · rw [change_optin_status, is_caller_owner_eq_false_of_ne (Ne.symm hc)]
      simp
  · simp [change_optin_status, is_caller_owner_self, get_optin_status,
      get_optin_status_or_default, Mapping.lookup, Mapping.insert_self]
  · simp [change_optin_status, is_caller_owner_self,
      Mapping.insert_insert_same]

/-- Witness for C5 at account 0 on the fresh store. -/
theorem change_optin_status_owner_iff_notifies_witness :
    change_optin_status UkeAccountFilter.new 0 true 0 =
      ⟨.ok (),
        { UkeAccountFilter.new with
            opted_in := UkeAccountFilter.new.opted_in.insert 0 true },
        [.OptIn 0 true]⟩ ∧
    get_optin_status
      (change_optin_status UkeAccountFilter.new 0 true 0).state 0 = true :=
  ⟨(change_optin_status_owner_iff_notifies UkeAccountFilter.new 0 0
      true).1 rfl,
    (change_optin_status_owner_iff_notifies UkeAccountFilter.new 0 0
      true).2.2.2.1⟩

/-- C6: for `id ≠ caller` both `change_global_filter` and `add_to_allowed`
return `CallerIsNotOwner` (never `NotOptedIn`), regardless of the stored
opt-in flag; `NotOptedIn` can only occur when the caller equals `id`. -/
theorem ownership_precedes_optin_check (s : UkeAccountFilter)
    (caller id x : AccountId) (status : Bool) :
    (id ≠ caller →
      (change_global_filter s caller id status).result =
        .error .CallerIsNotOwner ∧
      (add_to_allowed s caller id x).result =
        .error .CallerIsNotOwner) ∧
    ((change_global_filter s caller id status).result =
      .error .NotOptedIn → caller = id) ∧
    ((add_to_allowed s caller id x).result = .error .NotOptedIn →
      caller = id) := by
  refine ⟨?_, ?_, ?_⟩
  · intro h
    constructor <;>
      simp [change_global_filter, add_to_allowed,
        is_caller_owner_eq_false_of_ne h]
  · intro h
    by_cases hc : caller = id
    · exact hc
    · rw [change_global_filter,
        is_caller_owner_eq_false_of_ne (Ne.symm hc)] at h
      simp at h
  · intro h
    by_cases hc : caller = id
    · exact hc
    · rw [add_to_allowed,
        is_caller_owner_eq_false_of_ne (Ne.symm hc)] at h
      simp at h

/-- Witness for C6: account 0 targeted by caller 1 gets
`CallerIsNotOwner`; the fresh store yields `NotOptedIn` only for the owner
(caller 0 on account 0). -/
theorem ownership_precedes_optin_check_witness :
    ((change_global_filter UkeAccountFilter.new 1 0 true).result =
        .error .CallerIsNotOwner ∧
      (add_to_allowed UkeAccountFilter.new 1 0 2).result =
        .error .CallerIsNotOwner) ∧
    (0 : AccountId) = 0 :=
  ⟨(ownership_precedes_optin_check UkeAccountFilter.new 1 0 2 true).1
      (by decide),
    (ownership_precedes_optin_check UkeAccountFilter.new 0 0 2 true).2.1
      rfl⟩

/-- C7 counterexample: from the freshly constructed store, with no prior
opt-in, `add_to_allowed(0, 1)` as caller 0 already fails with `NotOptedIn`,
and after both adds the allow-list of account 0 is `[]`, not `[1, 2]`. -/
theorem monotonic_allow_list_counterexample :
    (add_to_allowed UkeAccountFilter.new 0 0 1).result =
      .error .NotOptedIn ∧
    get_allowed_accounts
      (add_to_allowed
        (add_to_allowed UkeAccountFilter.new 0 0 1).state 0 0 2).state 0 =
      [] ∧
    ([] : List AccountId) ≠ [1, 2] :=
  ⟨rfl, rfl, by decide⟩

/-- C7 amended: starting from the initial store, after `a` first opts in via
`change_optin_status(true, a)` and then runs `add_to_allowed(a, x1)` and
`add_to_allowed(a, x2)` as caller `a`, all three calls succeed and
`get_allowed_accounts a = [x1, x2]` (order preserved, duplicates permitted
when `x1 = x2`). -/
theorem monotonic_allow_list_after_optin (a x1 x2 : AccountId) :
    (change_optin_status UkeAccountFilter.new a true a).result = .ok () ∧
    (add_to_allowed
      (change_optin_status UkeAccountFilter.new a true a).state a a
      x1).result = .ok () ∧
    (add_to_allowed
      (add_to_allowed
        (change_optin_status UkeAccountFilter.new a true a).state a a
        x1).state a a x2).result = .ok () ∧
    get_allowed_accounts
      (add_to_allowed
        (add_to_allowed
          (change_optin_status UkeAccountFilter.new a true a).state a a
          x1).state a a x2).state a = [x1, x2] := by
  simp [change_optin_status, add_to_allowed, is_caller_owner_self,
    get_optin_status_or_default, get_allowed_list_or_default,
    get_allowed_accounts, Mapping.lookup, Mapping.insert,
    UkeAccountFilter.new]

/-- C8: an operation targeting account `a` leaves every entry of a distinct
account `b` in all three mappings unchanged, for every caller, starting
state (hence any point of any operation sequence) and outcome. -/
theorem cross_account_isolation (s : UkeAccountFilter) (caller : AccountId)
    (op : Op) (a b : AccountId) (h1 : op.target = a) (h2 : a ≠ b) :
    (exec s caller op).state.opted_in b = s.opted_in b ∧
    (exec s caller op).state.global_filter b = s.global_filter b ∧
    (exec s caller op).state.allowed_accounts b = s.allowed_accounts b := by
  subst h1
  cases op with
  | changeOptinStatus status id =>
      exact ⟨change_optin_status_opted_in_frame s caller status id b
          (Ne.symm h2),
        congrFun (change_optin_status_global_filter_frame s caller status
          id) b,
        congrFun (change_optin_status_allowed_frame s caller status id) b⟩
  | changeGlobalFilter id status =>
      exact ⟨congrFun (change_global_filter_opted_in_frame s caller id
          status) b,
        change_global_filter_global_frame s caller id status b (Ne.symm h2),
        congrFun (change_global_filter_allowed_frame s caller id status) b⟩
  | addToAllowed id y =>
      exact ⟨congrFun (add_to_allowed_opted_in_frame s caller id y) b,
        congrFun (add_to_allowed_global_frame s caller id y) b,
        add_to_allowed_allowed_frame s caller id y b (Ne.symm h2)⟩

/-- Witness for C8: opting account 0 in does not touch account 1. -/
theorem cross_account_isolation_witness :
    (exec UkeAccountFilter.new 0 (.changeOptinStatus true 0)).state.opted_in
        1 = UkeAccountFilter.new.opted_in 1 ∧
    (exec UkeAccountFilter.new 0
        (.changeOptinStatus true 0)).state.global_filter 1 =
      UkeAccountFilter.new.global_filter 1 ∧
    (exec UkeAccountFilter.new 0
        (.changeOptinStatus true 0)).state.allowed_accounts 1 =
      UkeAccountFilter.new.allowed_accounts 1 :=
  cross_account_isolation UkeAccountFilter.new 0 (.changeOptinStatus true 0)
    0 1 rfl (by decide)

/-- C9: each mutating operation writes at most its own mapping at its own
key: `change_optin_status` never touches `global_filter` or
`allowed_accounts`, `change_global_filter` never touches `opted_in` or
`allowed_accounts`, `add_to_allowed` never touches `opted_in` or
`global_filter`, and off-key entries of the targeted mapping are preserved;
in particular opting out leaves the stored global filter flag and
allow-list readable with their prior values. -/
theorem per_mapping_frame (s : UkeAccountFilter)
    (caller id x k : AccountId) (status : Bool) :
    (change_optin_status s caller status id).state.global_filter k =
      s.global_filter k ∧
    (change_optin_status s caller status id).state.allowed_accounts k =
      s.allowed_accounts k ∧
    (change_global_filter s caller id status).state.opted_in k =
      s.opted_in k ∧
    (change_global_filter s caller id status).state.allowed_accounts k =
      s.allowed_accounts k ∧
    (add_to_allowed s caller id x).state.opted_in k = s.opted_in k ∧
    (add_to_allowed s caller id x).state.global_filter k =
      s.global_filter k ∧
    (k ≠ id → (change_optin_status s caller status id).state.opted_in k =
      s.opted_in k) ∧
    (k ≠ id → (change_global_filter s caller id status).state.global_filter
      k = s.global_filter k) ∧
    (k ≠ id → (add_to_allowed s caller id x).state.allowed_accounts k =
      s.allowed_accounts k) ∧
    get_global_filter (change_optin_status s id false id).state k =
      get_global_filter s k ∧
    get_allowed_accounts (change_optin_status s id false id).state k =
      get_allowed_accounts s k := by
  refine ⟨congrFun (change_optin_status_global_filter_frame s caller status
      id) k,
    congrFun (change_optin_status_allowed_frame s caller status id) k,
    congrFun (change_global_filter_opted_in_frame s caller id status) k,
    congrFun (change_global_filter_allowed_frame s caller id status) k,
    congrFun (add_to_allowed_opted_in_frame s caller id x) k,
    congrFun (add_to_allowed_global_frame s caller id x) k,
    fun h => change_optin_status_opted_in_frame s caller status id k h,
    fun h => change_global_filter_global_frame s caller id status k h,
    fun h => add_to_allowed_allowed_frame s caller id x k h,
    ?_, ?_⟩
  · simp [get_global_filter, get_global_status_or_default, Mapping.lookup,
      congrFun (change_optin_status_global_filter_frame s id false id) k]
  · simp [get_allowed_accounts, get_allowed_list_or_default, Mapping.lookup,
      congrFun (change_optin_status_allowed_frame s id false id) k]

/-- Witness for C9 at concrete accounts (target 0, observed key 1). -/
theorem per_mapping_frame_witness :
    (change_optin_status UkeAccountFilter.new 0 true
        0).state.global_filter 1 = UkeAccountFilter.new.global_filter 1 ∧
    (change_optin_status UkeAccountFilter.new 0 true 0).state.opted_in 1 =
      UkeAccountFilter.new.opted_in 1 :=
  ⟨(per_mapping_frame UkeAccountFilter.new 0 0 1 1 true).1,
    (per_mapping_frame UkeAccountFilter.new 0 0 1 1 true).2.2.2.2.2.2.1
      (by decide)⟩

/-- C10: whenever `change_global_filter` or `add_to_allowed` returns
`NotOptedIn`, the whole storage state is unchanged (all three mappings at
every key) and no event is emitted. -/
theorem not_opted_in_atomicity (s : UkeAccountFilter)
    (caller id x : AccountId) (status : Bool) :
    ((change_global_filter s caller id status).result =
        .error .NotOptedIn →
      change_global_filter s caller id status =
        ⟨.error .NotOptedIn, s, []⟩) ∧
    ((add_to_allowed s caller id x).result = .error .NotOptedIn →
      add_to_allowed s caller id x = ⟨.error .NotOptedIn, s, []⟩) := by
  constructor <;> intro h <;>
    cases h1 : is_caller_owner caller id <;>
    cases h2 : get_optin_status_or_default s id <;>
    simp_all [change_global_filter, add_to_allowed]

/-- Witness for C10: the fresh store with caller 0 on account 0 hits the
`NotOptedIn` branch of both operations. -/
theorem not_opted_in_atomicity_witness :
    change_global_filter UkeAccountFilter.new 0 0 true =
      ⟨.error .NotOptedIn, UkeAccountFilter.new, []⟩ ∧
    add_to_allowed UkeAccountFilter.new 0 0 1 =
      ⟨.error .NotOptedIn, UkeAccountFilter.new, []⟩ :=
  ⟨(not_opted_in_atomicity UkeAccountFilter.new 0 0 1 true).1 rfl,
    (not_opted_in_atomicity UkeAccountFilter.new 0 0 1 true).2 rfl⟩

end Uke

